import Mathlib

/-!
Shallow embedding of `src/Node_classification.ipynb`: a GraphSAGE node
classification tutorial.  Tensor entries are modelled as rationals (the
notebook's float entries), node-level tensors as lists of rows, labels as a
list of integers.  The DGL `SAGEConv` layer computation itself is library
code external to the repository; it is modelled by an abstract layer
semantics `LayerSem` parameter, while the layer *configuration* that the
repository's code chooses (dimensions, aggregator, dropout, activation) is
embedded concretely.  PyTorch module state (learned parameters, training
flag) is made explicit: stateful calls pass and return a `ModelState`.
-/

namespace NodeClassif

/-- A numeric matrix: one row of class scores / features per node. -/
abbrev Mat : Type := List (List ℚ)

/-- The learned parameters of one layer: a weight matrix and a bias vector.
These are created and initialized by the external library, never by the
repository's code, which only reads them through library calls. -/
structure LayerParams where
  weight : List (List ℚ)
  bias : List ℚ
deriving DecidableEq, Repr

/-- Configuration of one `dgl_conv.SAGEConv` layer, holding exactly the
arguments the notebook passes to the library constructor:
`SAGEConv(in_feats, out_feats, aggregator_type, feat_drop, activation)`. -/
structure SAGEConv (A : Type) where
  in_feats : ℕ
  out_feats : ℕ
  aggregator_type : String
  feat_drop : ℚ
  activation : Option A
deriving DecidableEq, Repr

/-- `GraphSAGEModel`: its only attribute is `self.layers`, an `nn.ModuleList`
of `SAGEConv` layers. -/
structure GraphSAGEModel (A : Type) where
  layers : List (SAGEConv A)
deriving DecidableEq, Repr

/-- `GraphSAGEModel.__init__`: append one input layer
`SAGEConv(in_feats, n_hidden, aggregator_type, dropout, activation)`, then
`n_layers - 1` hidden layers `SAGEConv(n_hidden, n_hidden, ...)` (the Python
loop `for i in range(n_layers - 1)`), then one output layer
`SAGEConv(n_hidden, out_dim, aggregator_type, dropout, None)`.
`n_layers` is a natural number: for `n_layers = 0` Python's `range(-1)` is
empty, matching truncated subtraction. -/
def GraphSAGEModel.init (A : Type) (in_feats n_hidden out_dim n_layers : ℕ)
    (activation : Option A) (dropout : ℚ) (aggregator_type : String) :
    GraphSAGEModel A :=
  ⟨[⟨in_feats, n_hidden, aggregator_type, dropout, activation⟩]
    ++ List.replicate (n_layers - 1)
        ⟨n_hidden, n_hidden, aggregator_type, dropout, activation⟩
    ++ [⟨n_hidden, out_dim, aggregator_type, dropout, none⟩]⟩

/-- Abstract semantics of a library `SAGEConv` layer call `layer(g, h)`:
given the layer configuration, its learned parameters, the module's
training flag, the graph and the input features, produce output features.
The actual computation lives in the external DGL library. -/
abbrev LayerSem (G A : Type) : Type :=
  SAGEConv A → LayerParams → Bool → G → Mat → Mat

/-- `GraphSAGEModel.forward`: `h = features; for layer in self.layers:
h = layer(g, h); return h`.  Each layer call reads that layer's learned
parameters (held by the module, shown here as the state-dict view
`params`) and the training flag. -/
def GraphSAGEModel.forward {G A : Type} (sem : LayerSem G A)
    (m : GraphSAGEModel A) (params : List LayerParams) (training : Bool)
    (g : G) (features : Mat) : Mat :=
  (m.layers.zip params).foldl (fun h lp => sem lp.1 lp.2 training g h) features

/-- `NodeClassification`: stores `self.gconv_model = gconv_model` (the
`loss_fcn` attribute is the fixed `torch.nn.CrossEntropyLoss()` object). -/
structure NodeClassification (A : Type) where
  gconv_model : GraphSAGEModel A
deriving DecidableEq, Repr

/-- `NodeClassification.__init__(self, gconv_model, n_hidden, n_classes)`:
only `gconv_model` is stored; `n_hidden` and `n_classes` are ignored. -/
def NodeClassification.init {A : Type} (gconv_model : GraphSAGEModel A)
    (n_hidden n_classes : ℕ) : NodeClassification A :=
  ⟨gconv_model⟩

/-- The mutable state of the PyTorch module tree rooted at the
`NodeClassification` model: its structure, the learned parameters of its
layers (the state-dict view), and the training-mode flag toggled by
`model.train()` / `model.eval()`. -/
structure ModelState (A : Type) where
  model : NodeClassification A
  params : List LayerParams
  training : Bool
deriving DecidableEq, Repr

/-- Tensor fancy indexing `t[idx]` on a node-level matrix: one row per
index, rows looked up by position. -/
def sliceRows (t : Mat) (idx : List ℕ) : Mat :=
  idx.map fun i => t.getD i []

/-- Tensor fancy indexing `labels[idx]` on the integer label vector. -/
def sliceLabels (labels : List ℤ) (idx : List ℕ) : List ℤ :=
  idx.map fun i => labels.getD i 0

/-- `log(sum(exp(row)))` over the real numbers, the normalizer of the
softmax implicit in `torch.nn.CrossEntropyLoss`. -/
noncomputable def logSumExp (row : List ℚ) : ℝ :=
  Real.log ((row.map fun x : ℚ => Real.exp (x : ℝ)).sum)

/-- The cross-entropy of one row of logits against one integer target
class: `log(sum_j exp(row_j)) - row_target`. -/
noncomputable def ceTerm (row : List ℚ) (t : ℤ) : ℝ :=
  logSumExp row - ((row.getD t.toNat 0 : ℚ) : ℝ)

/-- `torch.nn.CrossEntropyLoss()` with its default mean reduction applied
to a batch of logit rows and integer targets. -/
noncomputable def crossEntropyLoss (logits : Mat) (targets : List ℤ) : ℝ :=
  (((logits.zip targets).map fun p => ceTerm p.1 p.2).sum)
    / (targets.length : ℝ)

/-- `NodeClassification.forward(self, g, features, train_idx)`:
`logits = self.gconv_model(g, features);
return self.loss_fcn(logits[train_idx], labels[train_idx])`.
`labels` is the notebook-level global the method closes over, passed here
explicitly. -/
noncomputable def NodeClassification.forward {G A : Type} (sem : LayerSem G A)
    (labels : List ℤ) (st : ModelState A) (g : G) (features : Mat)
    (train_idx : List ℕ) : ℝ :=
  let logits := st.model.gconv_model.forward sem st.params st.training g features
  crossEntropyLoss (sliceRows logits train_idx) (sliceLabels labels train_idx)

/-- Index of the first maximal entry, scanning left to right and replacing
the running maximum only on strict increase (`torch.max(logits, dim=1)`
second return value). -/
def argmaxAux : List ℚ → ℕ → ℚ → ℕ → ℕ
  | [], _, _, best => best
  | x :: xs, i, bv, best =>
      if bv < x then argmaxAux xs (i + 1) x i else argmaxAux xs (i + 1) bv best

/-- Arg-max over one row of class scores. -/
def argmaxRow : List ℚ → ℕ
  | [] => 0
  | x :: xs => argmaxAux xs 1 x 0

/-- `torch.sum(indices == test_labels)`: count positions where the
predicted class index equals the integer label. -/
def countEq (indices : List ℕ) (test_labels : List ℤ) : ℕ :=
  (indices.zip test_labels).countP fun p => decide ((p.1 : ℤ) = p.2)

/-- `NCEvaluate(model, g, features, labels, test_idx)`:
`model.eval()` clears the training flag; under `torch.no_grad()` the
embeddings `model.gconv_model(g, features)` are recomputed, sliced by
`test_idx` together with `labels`, predictions are the per-row arg-max,
and the result is `correct * 1.0 / len(test_labels)`.  The final division
raises `ZeroDivisionError` when `test_labels` is empty, modelled by
`none`; the state after the call is returned alongside. -/
def NCEvaluate {G A : Type} (sem : LayerSem G A) (model : ModelState A)
    (g : G) (features : Mat) (labels : List ℤ) (test_idx : List ℕ) :
    ModelState A × Option ℚ :=
  let model := { model with training := false }
  let logits := model.model.gconv_model.forward sem model.params
      model.training g features
  let logits := sliceRows logits test_idx
  let test_labels := sliceLabels labels test_idx
  let indices := logits.map argmaxRow
  let correct := countEq indices test_labels
  (model,
    if test_labels.length = 0 then none
    else some ((correct : ℚ) / (test_labels.length : ℚ)))

/-- Top-1 accuracy as the specification states it: the number of indices
`i` in the index set whose arg-max class equals the label of `i`, divided
by the size of the index set. -/
def topOneAccuracySpec (logits : Mat) (labels : List ℤ) (idx : List ℕ) : ℚ :=
  ((idx.countP fun i =>
      decide ((argmaxRow (logits.getD i []) : ℤ) = labels.getD i 0)) : ℚ)
    / (idx.length : ℚ)

/-- `np.where(mask > 0)[0]`: the (increasing) list of positions of the
mask whose entry is positive. -/
def whereIdx (mask : List ℤ) : List ℕ :=
  (List.range mask.length).filter fun i => decide (0 < mask.getD i 0)

/-- The property C6 asserts of the assembled model: every pair of layers
agrees on input dimension, output dimension and activation. -/
def layersIdentical {A : Type} (m : GraphSAGEModel A) : Prop :=
  ∀ l1 ∈ m.layers, ∀ l2 ∈ m.layers,
    l1.in_feats = l2.in_feats ∧ l1.out_feats = l2.out_feats ∧
      l1.activation = l2.activation

instance {A : Type} [DecidableEq A] (m : GraphSAGEModel A) :
    Decidable (layersIdentical m) := by
  unfold layersIdentical; infer_instance

/-- C2: `NodeClassification.forward` returns exactly the cross-entropy loss
of the model's output rows restricted to the index set against the labels
restricted to the same index set. -/
theorem forward_is_sliced_crossEntropy {G A : Type} (sem : LayerSem G A)
    (labels : List ℤ) (st : ModelState A) (g : G) (features : Mat)
    (train_idx : List ℕ) :
    NodeClassification.forward sem labels st g features train_idx =
      crossEntropyLoss
        (sliceRows
          (st.model.gconv_model.forward sem st.params st.training g features)
          train_idx)
        (sliceLabels labels train_idx) := rfl

/-- C3: for `n_layers ≥ 1` the assembled model has exactly `n_layers + 1`
layers: one input layer, `n_layers - 1` hidden layers, one output layer. -/
theorem init_layers_length (A : Type) (in_feats n_hidden out_dim n_layers : ℕ)
    (activation : Option A) (dropout : ℚ) (aggregator_type : String)
    (h : 1 ≤ n_layers) :
    (GraphSAGEModel.init A in_feats n_hidden out_dim n_layers activation
      dropout aggregator_type).layers.length = n_layers + 1 := by
  simp [GraphSAGEModel.init]
  omega

/-- Witness for C3 at the notebook's configuration `n_layers = 2`. -/
theorem init_layers_length_witness :
    1 ≤ 2 ∧
      (GraphSAGEModel.init Unit 500 64 3 2 (some ()) (1/2) "gcn").layers.length
        = 2 + 1 :=
  ⟨by decide,
    init_layers_length Unit 500 64 3 2 (some ()) (1/2) "gcn" (by decide)⟩

/-- C5: `NCEvaluate` leaves every model parameter unchanged — the parameter
store of the state it returns equals the parameter store it received (only
the training flag is touched, by `model.eval()`). -/
theorem NCEvaluate_preserves_params {G A : Type} (sem : LayerSem G A)
    (model : ModelState A) (g : G) (features : Mat) (labels : List ℤ)
    (test_idx : List ℕ) :
    (NCEvaluate sem model g features labels test_idx).1.params =
      model.params := rfl

/-- C9: the `n_hidden` and `n_classes` arguments of
`NodeClassification.__init__` are ignored, so two instances built from the
same `gconv_model` with different values of both compute the same loss on
every input. -/
theorem forward_ignores_hidden_classes {G A : Type} (sem : LayerSem G A)
    (labels : List ℤ) (gm : GraphSAGEModel A)
    (n_hidden n_classes n_hidden' n_classes' : ℕ) (params : List LayerParams)
    (training : Bool) (g : G) (features : Mat) (train_idx : List ℕ) :
    NodeClassification.forward sem labels
        ⟨NodeClassification.init gm n_hidden n_classes, params, training⟩
        g features train_idx =
      NodeClassification.forward sem labels
        ⟨NodeClassification.init gm n_hidden' n_classes', params, training⟩
        g features train_idx := rfl

/-- C10: on the empty index set `NCEvaluate` hits a division by zero and
fails to return an accuracy (modelled as `none`); on every non-empty index
set it returns one. -/
theorem NCEvaluate_empty_idx_fails {G A : Type} (sem : LayerSem G A)
    (model : ModelState A) (g : G) (features : Mat) (labels : List ℤ) :
    (NCEvaluate sem model g features labels []).2 = none ∧
      ∀ test_idx : List ℕ, test_idx ≠ [] →
        (NCEvaluate sem model g features labels test_idx).2 ≠ none := by
  constructor
  · rfl
  · intro test_idx hne
    simp only [NCEvaluate, sliceLabels, List.length_map]
    intro hcon
    split at hcon
    · exact hne (List.length_eq_zero.mp (by assumption))
    · exact Option.some_ne_none _ hcon

/-- Witness for C10: with identity layer semantics, evaluation on `[]`
fails and evaluation on `[0]` does not. -/
theorem NCEvaluate_empty_idx_fails_witness :
    (NCEvaluate (fun _ _ _ _ h => h) (⟨⟨⟨[]⟩⟩, [], true⟩ : ModelState Unit)
        () [[1, 2]] [1] []).2 = none ∧
      (NCEvaluate (fun _ _ _ _ h => h) (⟨⟨⟨[]⟩⟩, [], true⟩ : ModelState Unit)
        () [[1, 2]] [1] [0]).2 ≠ none :=
  ⟨(NCEvaluate_empty_idx_fails (fun _ _ _ _ h => h) ⟨⟨⟨[]⟩⟩, [], true⟩
      () [[1, 2]] [1]).1,
    (NCEvaluate_empty_idx_fails (fun _ _ _ _ h => h) ⟨⟨⟨[]⟩⟩, [], true⟩
      () [[1, 2]] [1]).2 [0] (by decide)⟩

lemma countEq_slice (L : Mat) (labels : List ℤ) (idx : List ℕ) :
    countEq ((sliceRows L idx).map argmaxRow) (sliceLabels labels idx) =
      idx.countP fun i =>
        decide ((argmaxRow (L.getD i []) : ℤ) = labels.getD i 0) := by
  simp only [countEq, sliceRows, sliceLabels, List.map_map, List.zip_map',
    List.countP_map]
  rfl

/-- C1: on a non-empty index set, `NCEvaluate` returns exactly the number of
indices whose arg-max class equals their label, divided by the size of the
index set. -/
theorem NCEvaluate_is_topOne_accuracy {G A : Type} (sem : LayerSem G A)
    (st : ModelState A) (g : G) (features : Mat) (labels : List ℤ)
    (test_idx : List ℕ) (h : test_idx ≠ []) :
    (NCEvaluate sem st g features labels test_idx).2 =
      some (topOneAccuracySpec
        (st.model.gconv_model.forward sem st.params false g features)
        labels test_idx) := by
  have hlen : test_idx.length ≠ 0 := fun hc => h (List.length_eq_zero.mp hc)
  simp only [NCEvaluate, topOneAccuracySpec, countEq_slice]
  simp only [sliceLabels, List.length_map]
  rw [if_neg hlen]

/-- Witness for C1: two test nodes, both classified correctly. -/
theorem NCEvaluate_is_topOne_accuracy_witness :
    ([0, 1] : List ℕ) ≠ [] ∧
      (NCEvaluate (fun _ _ _ _ h => h)
          (⟨⟨⟨[]⟩⟩, [], true⟩ : ModelState Unit) () [[1, 2], [3, 0]]
          [1, 0] [0, 1]).2 =
        some (topOneAccuracySpec [[1, 2], [3, 0]] [1, 0] [0, 1]) :=
  ⟨by decide,
    NCEvaluate_is_topOne_accuracy (fun _ _ _ _ h => h) ⟨⟨⟨[]⟩⟩, [], true⟩
      () [[1, 2], [3, 0]] [1, 0] [0, 1] (by decide)⟩

lemma countEq_le_length (indices : List ℕ) (test_labels : List ℤ) :
    countEq indices test_labels ≤ test_labels.length :=
  le_trans (List.countP_le_length _)
    (by rw [List.length_zip]; exact min_le_right _ _)

/-- C4: any accuracy value `NCEvaluate` returns lies in `[0, 1]`. -/
theorem NCEvaluate_acc_in_unit_interval {G A : Type} (sem : LayerSem G A)
    (st : ModelState A) (g : G) (features : Mat) (labels : List ℤ)
    (test_idx : List ℕ) (v : ℚ)
    (h : (NCEvaluate sem st g features labels test_idx).2 = some v) :
    0 ≤ v ∧ v ≤ 1 := by
  simp only [NCEvaluate] at h
  by_cases hlen : (sliceLabels labels test_idx).length = 0
  · rw [if_pos hlen] at h
    exact absurd h (by simp)
  · rw [if_neg hlen] at h
    injection h with h
    subst h
    constructor
    · exact div_nonneg (Nat.cast_nonneg _) (Nat.cast_nonneg _)
    · rw [div_le_one (by exact_mod_cast Nat.pos_of_ne_zero hlen)]
      exact_mod_cast countEq_le_length _ _

/-- Witness for C4 at a concrete evaluation returning accuracy `1`. -/
theorem NCEvaluate_acc_in_unit_interval_witness :
    (NCEvaluate (fun _ _ _ _ h => h)
        (⟨⟨⟨[]⟩⟩, [], true⟩ : ModelState Unit) () [[0, 5], [2, 1]]
        [1, 1] [0]).2 = some 1 ∧ (0 ≤ (1 : ℚ) ∧ (1 : ℚ) ≤ 1) := by
  have h : (NCEvaluate (fun _ _ _ _ h => h)
      (⟨⟨⟨[]⟩⟩, [], true⟩ : ModelState Unit) () [[0, 5], [2, 1]]
      [1, 1] [0]).2 = some 1 := by
    norm_num [NCEvaluate, GraphSAGEModel.forward, sliceRows, sliceLabels,
      countEq, argmaxRow, argmaxAux]
  exact ⟨h,
    NCEvaluate_acc_in_unit_interval (fun _ _ _ _ h => h) ⟨⟨⟨[]⟩⟩, [], true⟩
      () [[0, 5], [2, 1]] [1, 1] [0] 1 h⟩

/-- Counterexample for C6: in the notebook's own configuration
(`in_feats = 500`, `n_hidden = 64`, `out_dim = 3`, `n_layers = 2`, relu
activation, dropout `0.5`, aggregator `"gcn"`) the assembled layers are not
pairwise identical: the input layer has input dimension 500 while the next
has 64, and the output layer drops the activation. -/
theorem layersIdentical_counterexample :
    ¬ layersIdentical
        (GraphSAGEModel.init Unit 500 64 3 2 (some ()) (1/2) "gcn") := by
  decide

/-- C6 (amended): every layer of the assembled model shares the same
aggregator type and the same dropout rate; it is in these respects — not in
dimensions or activation — that the stacked layers are identical. -/
theorem init_layers_share_agg_dropout (A : Type)
    (in_feats n_hidden out_dim n_layers : ℕ) (activation : Option A)
    (dropout : ℚ) (aggregator_type : String) (l : SAGEConv A)
    (h : l ∈ (GraphSAGEModel.init A in_feats n_hidden out_dim n_layers
        activation dropout aggregator_type).layers) :
    l.aggregator_type = aggregator_type ∧ l.feat_drop = dropout := by
  simp only [GraphSAGEModel.init, List.mem_append, List.mem_singleton,
    List.mem_replicate] at h
  rcases h with (h | h) | h
  · subst h; exact ⟨rfl, rfl⟩
  · rw [h.2]; exact ⟨rfl, rfl⟩
  · subst h; exact ⟨rfl, rfl⟩

/-- Witness for the amended C6: the input layer of the notebook's model
carries aggregator `"gcn"` and dropout `1/2`. -/
theorem init_layers_share_agg_dropout_witness :
    (⟨500, 64, "gcn", 1/2, some ()⟩ : SAGEConv Unit) ∈
        (GraphSAGEModel.init Unit 500 64 3 2 (some ()) (1/2) "gcn").layers ∧
      ((⟨500, 64, "gcn", 1/2, some ()⟩ : SAGEConv Unit).aggregator_type
          = "gcn" ∧
        (⟨500, 64, "gcn", 1/2, some ()⟩ : SAGEConv Unit).feat_drop = 1/2) :=
  ⟨by simp [GraphSAGEModel.init],
    init_layers_share_agg_dropout Unit 500 64 3 2 (some ()) (1/2) "gcn"
      ⟨500, 64, "gcn", 1/2, some ()⟩ (by simp [GraphSAGEModel.init])⟩

/-- C7: every index produced by `np.where(mask > 0)[0]` is strictly below
the mask's length (the node count), so slicing node-level tensors with the
train/val/test index sets stays in bounds. -/
theorem whereIdx_lt_length (mask : List ℤ) (i : ℕ) (h : i ∈ whereIdx mask) :
    i < mask.length := by
  simp only [whereIdx, List.mem_filter, List.mem_range] at h
  exact h.1

/-- Witness for C7 on the mask `[0, 1]`. -/
theorem whereIdx_lt_length_witness :
    1 ∈ whereIdx [0, 1] ∧ 1 < ([0, 1] : List ℤ).length :=
  ⟨by decide, whereIdx_lt_length [0, 1] 1 (by decide)⟩

lemma exp_getD_le_sumExp (row : List ℚ) (k : ℕ) (hk : k < row.length) :
    Real.exp ((row.getD k 0 : ℚ) : ℝ) ≤
      (row.map fun x : ℚ => Real.exp (x : ℝ)).sum := by
  have hmem : row.getD k 0 ∈ row := by
    rw [List.getD_eq_getElem _ _ hk]
    exact List.getElem_mem hk
  have hmem2 : Real.exp ((row.getD k 0 : ℚ) : ℝ) ∈
      row.map (fun x : ℚ => Real.exp (x : ℝ)) :=
    List.mem_map_of_mem (fun x : ℚ => Real.exp (x : ℝ)) hmem
  exact List.single_le_sum
    (fun x hx => by
      obtain ⟨y, _, rfl⟩ := List.mem_map.mp hx
      exact (Real.exp_pos _).le)
    _ hmem2

lemma ceTerm_nonneg (row : List ℚ) (t : ℤ) (h : t.toNat < row.length) :
    0 ≤ ceTerm row t := by
  have hle := exp_getD_le_sumExp row t.toNat h
  have hpos : 0 < (row.map fun x : ℚ => Real.exp (x : ℝ)).sum :=
    lt_of_lt_of_le (Real.exp_pos _) hle
  have hlog : ((row.getD t.toNat 0 : ℚ) : ℝ) ≤ logSumExp row :=
    (Real.le_log_iff_exp_le hpos).mpr hle
  simpa [ceTerm] using sub_nonneg.mpr hlog

/-- C8: on a non-empty training index set whose labels are valid class
indices for the corresponding output rows (as `CrossEntropyLoss` requires),
the loss returned by `NodeClassification.forward` is non-negative. -/
theorem forward_loss_nonneg {G A : Type} (sem : LayerSem G A)
    (labels : List ℤ) (st : ModelState A) (g : G) (features : Mat)
    (train_idx : List ℕ) (hne : train_idx ≠ [])
    (hvalid : ∀ i ∈ train_idx, (labels.getD i 0).toNat <
      ((st.model.gconv_model.forward sem st.params st.training g
        features).getD i []).length) :
    0 ≤ NodeClassification.forward sem labels st g features train_idx := by
  have hne' : (0 : ℝ) ≤ (sliceLabels labels train_idx).length :=
    Nat.cast_nonneg _
  simp only [NodeClassification.forward, crossEntropyLoss, sliceRows,
    sliceLabels, List.zip_map', List.map_map]
  refine div_nonneg (List.sum_nonneg ?_) hne'
  intro x hx
  obtain ⟨i, hi, rfl⟩ := List.mem_map.mp hx
  exact ceTerm_nonneg _ _ (hvalid i hi)

/-- Witness for C8: a single training node with a valid label. -/
theorem forward_loss_nonneg_witness :
    ([0] : List ℕ) ≠ [] ∧
      (∀ i ∈ ([0] : List ℕ), ((([1] : List ℤ)).getD i 0).toNat <
        (((⟨⟨⟨[]⟩⟩, [], true⟩ : ModelState Unit).model.gconv_model.forward
          (fun _ _ _ _ h => h) [] true () [[0, 5]]).getD i []).length) ∧
      0 ≤ NodeClassification.forward (fun _ _ _ _ h => h) [1]
        (⟨⟨⟨[]⟩⟩, [], true⟩ : ModelState Unit) () [[0, 5]] [0] :=
  ⟨by decide, by decide,
    forward_loss_nonneg (fun _ _ _ _ h => h) [1] ⟨⟨⟨[]⟩⟩, [], true⟩
      () [[0, 5]] [0] (by decide) (by decide)⟩

end NodeClassif
